import Mathlib

/-!
Verification of `src/lib/send_mqtt_ping.py`, a single-file MQTT publisher.

The script is straight-line code with no branches of its own (the only
conditional lives inside the `on_connect` callback).  We embed it as a
trace model: each call the script makes on the paho-mqtt client, each
`time.sleep`, and each `print` becomes one `Event`.  The run `main` is a
function of the inputs the script draws from its surroundings:

* `t` — the value of `int(time.time())` used to build `client_id`;
* `rc` — the CONNACK result code the broker delivers to the registered
  `on_connect` callback while the network loop runs;
* `pubResult` — whatever `client.publish` returns (the script never binds
  or inspects it, so the trace cannot depend on it).

Module-level constants keep their source names.
-/

namespace SendMqttPing

/-- Module-level constant `ADA_USERNAME` (line 12 of the source): the
Adafruit IO account name, shipped as the empty string. -/
def ADA_USERNAME : String := ""

/-- Module-level constant `ADA_KEY` (line 13): the credential, shipped empty. -/
def ADA_KEY : String := ""

/-- Module-level constant `FEED_KEY` (line 14). -/
def FEED_KEY : String := "beeper"

/-- Module-level constant `BROKER` (line 16). -/
def BROKER : String := "io.adafruit.com"

/-- Module-level constant `PORT` (line 17), the TLS port. -/
def PORT : Nat := 8883

/-- The f-string on line 19, `f"{ADA_USERNAME}/feeds/{FEED_KEY}"`,
abstracted over the two interpolated module constants. -/
def mkTopic (u f : String) : String := s!"{u}/feeds/{f}"

/-- Module-level `topic` (line 19), instantiated at the shipped constants. -/
def topic : String := mkTopic ADA_USERNAME FEED_KEY

/-- Module-level `client_id` (line 20), `f"py-trigger-{int(time.time())}"`,
abstracted over the epoch time. -/
def client_id (t : Nat) : String := s!"py-trigger-{t}"

/-- Spec-side topic format, written from the spec sentence
"Topic string format: `<account>/feeds/<feed-key>`", to be compared with
the source-side `mkTopic`. -/
def topicSpec (account feedKey : String) : String :=
  account ++ "/feeds/" ++ feedKey

/-- One observable step of the script: a call on the paho-mqtt client, a
sleep, or a console print.  `tlsSet`'s argument models the `ca_certs`
parameter of `tls_set` (`none` = system CA certificates, as when called
with no arguments). -/
inductive Event where
  | mkClient (clientId : String)
  | usernamePwSet (username pw : String)
  | tlsSet (caCerts : Option String)
  | tlsInsecureSet (b : Bool)
  | setOnConnect
  | connect (host : String) (port : Nat)
  | loopStart
  | sleep (seconds : Nat)
  | printLine (s : String)
  | publish (top payload : String)
  | loopStop
  | disconnect
  deriving DecidableEq, Repr

/-- The `on_connect` callback (lines 22-26): the line it prints as a
function of the CONNACK result code `rc`.  (In the source the callback
returns `None`; its only effect is this print.) -/
def on_connect (rc : Nat) : String :=
  if rc = 0 then "Connected to MQTT broker"
  else "Failed to connect, rc: " ++ toString rc

/-- The trace of `main` (lines 28-42).  The script is straight-line: it
builds the client, sets credentials, configures TLS, registers
`on_connect`, connects, starts the network loop (during which the broker
answers and the callback prints `on_connect rc`), sleeps 1 s, prints and
publishes, sleeps 1 s, stops the loop, disconnects, and prints `Done.`.
`pubResult` is the value `client.publish` returns; the script discards it,
so it appears nowhere in the trace. -/
def main (t rc pubResult : Nat) : List Event :=
  [ .mkClient (client_id t),
    .usernamePwSet ADA_USERNAME ADA_KEY,
    .tlsSet none,
    .tlsInsecureSet false,
    .setOnConnect,
    .connect BROKER PORT,
    .loopStart,
    .printLine (on_connect rc),
    .sleep 1,
    .printLine ("Publishing 'true' to " ++ topic),
    .publish topic "true",
    .sleep 1,
    .loopStop,
    .disconnect,
    .printLine "Done." ]

/-- Recognizes publish events. -/
def isPublish : Event → Bool
  | .publish _ _ => true
  | _ => false

/-- Recognizes sleep events. -/
def isSleep : Event → Bool
  | .sleep _ => true
  | _ => false

/-- Recognizes the two TLS-configuration calls. -/
def isTlsConfig : Event → Bool
  | .tlsSet _ => true
  | .tlsInsecureSet _ => true
  | _ => false

/-- Recognizes console prints. -/
def isPrintLine : Event → Bool
  | .printLine _ => true
  | _ => false

/-- The script reads no environment variables and parses no arguments (it
imports only `ssl`, `time` and `paho.mqtt`): a run in any process
environment is the unparameterized run. -/
def mainWithEnv (env : String → Option String) (t rc pubResult : Nat) :
    List Event :=
  main t rc pubResult

end SendMqttPing

namespace SendMqttPing

/-- C1: every run of `main` performs exactly one publish, whose payload is
the literal `"true"`, on the single fixed `topic`; the publish is followed
(with nothing retried) by the second sleep, `loop_stop`, `disconnect` and
the final print. -/
theorem publish_once_then_disconnect (t rc r : Nat) :
    (main t rc r).filter isPublish = [.publish topic "true"] ∧
    (main t rc r).drop 10 =
      [.publish topic "true", .sleep 1, .loopStop, .disconnect,
       .printLine "Done."] := by
  constructor <;> rfl

/-- C2: the topic computed by the source's f-string agrees, for every
account name and feed key, with the spec's format
`<account>/feeds/<feed-key>`. -/
theorem topic_format (u f : String) : mkTopic u f = topicSpec u f := by
  show "" ++ u ++ "/feeds/" ++ f ++ "" = u ++ "/feeds/" ++ f
  simp [String.empty_append, String.append_empty]

/-- C3: every run connects to host `io.adafruit.com` on port `8883`, and
both TLS-configuration calls precede the `connect` call in the trace. -/
theorem connect_host_port_after_tls (t rc r : Nat) :
    BROKER = "io.adafruit.com" ∧ PORT = 8883 ∧
    (main t rc r).take 7 =
      [.mkClient (client_id t), .usernamePwSet ADA_USERNAME ADA_KEY,
       .tlsSet none, .tlsInsecureSet false, .setOnConnect,
       .connect "io.adafruit.com" 8883, .loopStart] := by
  refine ⟨rfl, rfl, ?_⟩
  rfl

/-- C4: the only TLS-configuration calls in any run are `tls_set()` with
no custom CA argument (system CA certificates) and
`tls_insecure_set(False)`. -/
theorem tls_system_cas_not_insecure (t rc r : Nat) :
    (main t rc r).filter isTlsConfig =
      [.tlsSet none, .tlsInsecureSet false] := by
  rfl

/-- C5: the value returned by `client.publish` is discarded — the trace is
the same for every publish result — and the steps after the publish are
always the second sleep, `loop_stop`, `disconnect`, and the `Done.`
print. -/
theorem publish_result_discarded (t rc r r' : Nat) :
    main t rc r = main t rc r' ∧
    (main t rc r).drop 11 =
      [.sleep 1, .loopStop, .disconnect, .printLine "Done."] := by
  constructor <;> rfl

/-- C6: the run sleeps exactly twice, 1 second each time; the first sleep
comes after `loop_start` and before the publish, the second after the
publish and before `loop_stop`, with no other waiting primitive in the
trace. -/
theorem fixed_sleep_pacing (t rc r : Nat) :
    (main t rc r).filter isSleep = [.sleep 1, .sleep 1] ∧
    (main t rc r).drop 6 =
      [.loopStart, .printLine (on_connect rc), .sleep 1,
       .printLine ("Publishing 'true' to " ++ topic),
       .publish topic "true", .sleep 1, .loopStop, .disconnect,
       .printLine "Done."] := by
  constructor <;> rfl

/-- C7 counterexample: configuration is NOT supplied via the environment —
two process environments that disagree on a broker variable produce the
same run, which still connects to the hardcoded `io.adafruit.com:8883`. -/
theorem config_from_env_counterexample :
    (fun k => if k = "MQTT_BROKER" then some "other.example" else none :
        String → Option String) "MQTT_BROKER" ≠
      (fun _ => (none : Option String)) "MQTT_BROKER" ∧
    mainWithEnv (fun k => if k = "MQTT_BROKER" then some "other.example"
        else none) 0 0 0 =
      mainWithEnv (fun _ => none) 0 0 0 ∧
    ((mainWithEnv (fun k => if k = "MQTT_BROKER" then some "other.example"
        else none) 0 0 0).get? 5 = some (.connect "io.adafruit.com" 8883)) := by
  refine ⟨?_, rfl, rfl⟩
  simp

/-- C7 (amended): the configuration inputs — broker host, port, account
identifier, credential, feed key and payload — are hardcoded module-level
constants; `main` takes no configuration parameters and reads no
environment, so the run is the same under every environment and uses the
shipped literals. -/
theorem config_hardcoded (env : String → Option String) (t rc r : Nat) :
    mainWithEnv env t rc r = main t rc r ∧
    BROKER = "io.adafruit.com" ∧ PORT = 8883 ∧
    ADA_USERNAME = "" ∧ ADA_KEY = "" ∧ FEED_KEY = "beeper" ∧
    (main t rc r).get? 5 = some (.connect BROKER PORT) ∧
    (main t rc r).get? 1 = some (.usernamePwSet ADA_USERNAME ADA_KEY) ∧
    (main t rc r).get? 10 = some (.publish topic "true") := by
  exact ⟨rfl, rfl, rfl, rfl, rfl, rfl, rfl, rfl, rfl⟩

/-- C8: `main` registers `on_connect` as the connect callback, whose
result is delivered only as a printed line in the trace (the callback
returns nothing to `main`); it prints `Connected to MQTT broker` exactly
for result code 0 and, for every nonzero `rc`, a failure message that
renders `rc`. -/
theorem on_connect_callback_behavior (t r rc : Nat) (h : rc ≠ 0) :
    (main t rc r).get? 4 = some .setOnConnect ∧
    (main t rc r).get? 7 = some (.printLine (on_connect rc)) ∧
    on_connect 0 = "Connected to MQTT broker" ∧
    on_connect rc = "Failed to connect, rc: " ++ toString rc := by
  refine ⟨rfl, rfl, rfl, ?_⟩
  rw [on_connect, if_neg h]

/-- C8 witness: the callback theorem at the concrete failure code 5. -/
theorem on_connect_callback_behavior_witness :
    (5 : Nat) ≠ 0 ∧
    ((main 0 5 0).get? 4 = some .setOnConnect ∧
     (main 0 5 0).get? 7 = some (.printLine (on_connect 5)) ∧
     on_connect 0 = "Connected to MQTT broker" ∧
     on_connect 5 = "Failed to connect, rc: " ++ toString 5) :=
  ⟨by decide, on_connect_callback_behavior 0 0 5 (by decide)⟩

/-- C9: for every connect result code, including every nonzero one, the
run performs the same unconditional tail — sleep, publish, sleep,
`loop_stop`, `disconnect`, `Done.` — and the non-print operations of two
runs with different result codes are identical: a failed connection never
aborts the run or changes which operations are performed. -/
theorem connect_failure_does_not_abort (t r rc rc' : Nat) :
    (main t rc r).drop 8 =
      [.sleep 1, .printLine ("Publishing 'true' to " ++ topic),
       .publish topic "true", .sleep 1, .loopStop, .disconnect,
       .printLine "Done."] ∧
    (main t rc r).filter (fun e => !(isPrintLine e)) =
      (main t rc' r).filter (fun e => !(isPrintLine e)) := by
  constructor <;> rfl

/-- C10: with the shipped defaults (`ADA_USERNAME = ""`,
`FEED_KEY = "beeper"`) the topic is `/feeds/beeper`, beginning with a
slash because the account component is empty; the run authenticates with
the empty account name and publishes to that topic. -/
theorem default_topic_empty_account (t rc r : Nat) :
    topic = "/feeds/beeper" ∧
    ADA_USERNAME = "" ∧
    topic.data.head? = some (Char.ofNat 47) ∧
    (main t rc r).get? 1 = some (.usernamePwSet "" ADA_KEY) ∧
    (main t rc r).get? 10 = some (.publish "/feeds/beeper" "true") := by
  exact ⟨rfl, rfl, rfl, rfl, rfl⟩

end SendMqttPing
